import Mathlib

/-!
Verification of the benchmark core of the `work-belongings` repository:
the load tester (`benchmark/load_test.py`), the statistics calculator
(`benchmark/metrics/calculator.py`) and the Prometheus collector
(`benchmark/metrics/collector.py`).

Python floats are modelled as rationals (`ℚ`); values that the code obtains
by taking a square root are modelled in `ℝ`.  Python strings are modelled
as `String` (or as `List Char` where slicing arithmetic matters).
-/

namespace Numpy

/-- Modelled from the numpy library (not part of the repository):
`np.percentile(values, p)` with the default "linear" interpolation method.
The data is sorted; the result is the value at fractional rank
`p / 100 * (n - 1)`, linearly interpolated between the two adjacent sorted
samples. -/
def np_percentile (values : List ℚ) (p : ℚ) : ℚ :=
  let sorted := values.insertionSort (· ≤ ·)
  let n := sorted.length
  if n = 0 then 0
  else
    let h : ℚ := p / 100 * ((n : ℚ) - 1)
    let i : ℕ := (⌊h⌋).toNat
    let lower := sorted.getD i 0
    let upper := sorted.getD (min (i + 1) (n - 1)) 0
    lower + (h - (⌊h⌋ : ℚ)) * (upper - lower)

/-- Modelled from the numpy library (not part of the repository):
`np.mean`.  The sources only apply it to non-empty lists; the value at `[]`
is irrelevant and fixed to `0`. -/
def np_mean (values : List ℚ) : ℚ :=
  values.sum / (values.length : ℚ)

end Numpy

namespace Calculator

/-- `calculate_percentiles` from `benchmark/metrics/calculator.py`:
the Python dict `{p: float(np.percentile(values, p)) for p in percentiles}`
is modelled as an association list; for empty input every requested
percentile maps to `0.0`. -/
def calculate_percentiles (values : List ℚ) (percentiles : List ℤ) :
    List (ℤ × ℚ) :=
  if values = [] then percentiles.map (fun p => (p, 0))
  else percentiles.map (fun p => (p, Numpy.np_percentile values (p : ℚ)))

/-- `calculate_mean` from `benchmark/metrics/calculator.py`. -/
def calculate_mean (values : List ℚ) : ℚ :=
  if values = [] then 0 else Numpy.np_mean values

/-- The quantity under the square root in `np.std(values, ddof=1)`:
the Bessel-corrected sample variance. -/
def sampleVariance (values : List ℚ) : ℚ :=
  ((values.map (fun x => (x - Numpy.np_mean values) ^ 2)).sum) /
    ((values.length : ℚ) - 1)

/-- `calculate_stddev` from `benchmark/metrics/calculator.py`:
`np.std(values, ddof=1)`, i.e. the square root of the sample variance;
`0.0` for fewer than 2 values.  The square root forces the result into `ℝ`. -/
noncomputable def calculate_stddev (values : List ℚ) : ℝ :=
  if values.length < 2 then 0
  else Real.sqrt ((sampleVariance values : ℚ) : ℝ)

/-- `calculate_coefficient_of_variation` from
`benchmark/metrics/calculator.py`: `stddev / mean * 100`, or `0.0` when the
mean is `0`. -/
noncomputable def calculate_coefficient_of_variation (values : List ℚ) : ℝ :=
  if calculate_mean values = 0 then 0
  else calculate_stddev values / ((calculate_mean values : ℚ) : ℝ) * 100

/-- Modelled from the Python formatting `f"{cv:.2f}"` used in
`verify_reproducibility`'s messages: a rendering of the real number rounded
to two decimal places (the exact digits of the rendering are not needed by
any claim, only that the message embeds a rendering of the CV). -/
noncomputable def pyFormat2f (x : ℝ) : String :=
  let n : ℤ := ⌊x * 100 + 1 / 2⌋
  toString (n / 100) ++ "." ++
    (if n.natAbs % 100 < 10 then "0" else "") ++ toString (n.natAbs % 100)

/-- Modelled from the Python formatting `f"{max_cv_percent}"`:
a rendering of the threshold. -/
def qRender (q : ℚ) : String := toString q

/-- `verify_reproducibility` from `benchmark/metrics/calculator.py`. -/
noncomputable def verify_reproducibility (throughput_values : List ℚ)
    (max_cv_percent : ℚ) : Bool × ℝ × String :=
  if throughput_values.length < 2 then
    (true, 0, "Insufficient data for variance check")
  else
    let cv := calculate_coefficient_of_variation throughput_values
    if cv ≤ (max_cv_percent : ℝ) then
      (true, cv, "Variance within limits (CV: " ++ pyFormat2f cv ++
        "% <= " ++ qRender max_cv_percent ++ "%)")
    else
      (false, cv, "Variance too high (CV: " ++ pyFormat2f cv ++
        "% > " ++ qRender max_cv_percent ++ "%)")

end Calculator

namespace LoadTest

/-- The fixed topic list of `generate_prompt` in `benchmark/load_test.py`.
Python strings are modelled as `List Char` so that slicing arithmetic is
explicit. -/
def topics : List (List Char) :=
  ["quantum computing and its applications".toList,
   "machine learning model architectures".toList,
   "distributed systems design patterns".toList,
   "natural language processing techniques".toList,
   "computer vision algorithms".toList,
   "database optimization strategies".toList,
   "microservices architecture principles".toList,
   "cloud infrastructure management".toList,
   "data structures and algorithms".toList,
   "software engineering best practices".toList]

/-- The seed `base_phrase` of `generate_prompt`. -/
def basePhrase : List Char :=
  "Please explain the following concept in detail: ".toList

/-- The elaboration phrase appended by `generate_prompt`'s while loop:
`f"Elaborate on {topic}. "`. -/
def elaborationPhrase (topic : List Char) : List Char :=
  "Elaborate on ".toList ++ topic ++ ". ".toList

/-- The while loop of `generate_prompt`:
`while len(prompt) * 0.3 < input_length: prompt += f"Elaborate on {topic}. "`.
The float comparison `len * 0.3 < input_length` is modelled exactly as the
rational inequality `3 * len < 10 * input_length`. -/
def padLoop (input_length : ℤ) (topic : List Char) (prompt : List Char) :
    List Char :=
  if _h : 3 * (prompt.length : ℤ) < 10 * input_length then
    padLoop input_length topic (prompt ++ elaborationPhrase topic)
  else prompt
termination_by (10 * input_length - 3 * (prompt.length : ℤ)).toNat
decreasing_by
  simp only [elaborationPhrase, List.length_append]
  have h13 : ("Elaborate on ".toList).length = 13 := rfl
  have h2 : (". ".toList).length = 2 := rfl
  rw [h13, h2]
  push_cast
  omega

/-- Python's `s[:k]` on a string `s` with an arbitrary integer bound `k`:
for `k ≥ 0` the first `k` characters, for `k < 0` all but the last `-k`
characters (clamped at the empty string). -/
def pySliceTo (l : List Char) (k : ℤ) : List Char :=
  if 0 ≤ k then l.take k.toNat else l.take (l.length - (-k).toNat)

/-- `generate_prompt` from `benchmark/load_test.py`.  The configuration
lookups are passed as arguments (`prompt_type`, `fixed_prompt`,
`input_length`); `random.choice(topics)` is modelled by an arbitrary index
`topicIdx` into the topic list.  The function is total: the source raises
no error. -/
def generate_prompt (prompt_type : String) (fixed_prompt : List Char)
    (input_length : ℤ) (topicIdx : ℕ) : List Char :=
  if prompt_type = "fixed" ∧ fixed_prompt ≠ [] then fixed_prompt
  else
    let topic := topics.getD (topicIdx % topics.length) []
    let prompt := basePhrase ++ topic ++ ". ".toList
    pySliceTo (padLoop input_length topic prompt) (input_length * 3)

/-- One line of the response stream in `send_request`, classified by the
branch of the line-processing loop that handles it:
a line without the `"data: "` prefix, the `[DONE]` sentinel, a line whose
payload fails JSON decoding (silently skipped), or a decoded chunk whose
extracted `delta.content` is `content` (possibly empty). -/
inductive LineEvent where
  | notData : LineEvent
  | doneSentinel : LineEvent
  | badJson : LineEvent
  | chunk (content : String) : LineEvent
deriving DecidableEq

/-- The contents accumulated in `output_text` by `send_request`'s stream
loop: every decoded chunk's content, in order, stopping at the `[DONE]`
sentinel. -/
def streamContents : List LineEvent → List String
  | [] => []
  | LineEvent.doneSentinel :: _ => []
  | LineEvent.chunk c :: rest => c :: streamContents rest
  | LineEvent.notData :: rest => streamContents rest
  | LineEvent.badJson :: rest => streamContents rest

/-- `len("".join(output_text))`: the length of the accumulated output
content. -/
def outputLength (lines : List LineEvent) : ℕ :=
  ((streamContents lines).map String.length).sum

/-- Whether some chunk carried non-empty content, i.e. whether
`first_token_time` was ever set by the loop. -/
def hasContent (lines : List LineEvent) : Bool :=
  (streamContents lines).any (fun c => !(c == ""))

/-- `RequestMetrics` from `benchmark/load_test.py`. -/
structure RequestMetrics where
  request_id : String
  start_time : ℚ
  end_time : ℚ
  ttft_ms : ℚ := 0
  e2e_latency_ms : ℚ := 0
  output_tokens : ℕ := 0
  input_tokens : ℕ := 0
  tokens_per_second : ℚ := 0
  error : Option String := none
deriving DecidableEq

/-- The wall-clock instants read by one `send_request` call:
`t0` is the `time.time()` stored as `metrics.start_time`, `start` the read
at the top of the `try` block, `firstTok` the read when the first chunk
with non-empty content arrives, `endT` the read after the stream completes
(also used for `end_time` in the `except` handler). -/
structure Clock where
  t0 : ℚ
  start : ℚ
  firstTok : ℚ
  endT : ℚ
deriving DecidableEq

/-- Real time moves forward through the four reads. -/
def Clock.Monotone (c : Clock) : Prop :=
  c.t0 ≤ c.start ∧ c.start ≤ c.firstTok ∧ c.firstTok ≤ c.endT

/-- The possible outcomes of the HTTP exchange inside `send_request`:
an exception raised by the client (connection error, timeout, …) with its
rendered message, or a response with a status code, an error body and the
streamed lines. -/
inductive HttpOutcome where
  | exn (message : String) : HttpOutcome
  | resp (status : ℕ) (body : String) (lines : List LineEvent) : HttpOutcome
deriving DecidableEq

/-- `send_request` from `benchmark/load_test.py`.  The function is total —
the source catches every exception and records it in `error`.  Token
estimates use the source's `int(len(...) / 4)`, which is truncating
division on non-negative lengths. -/
def send_request (clock : Clock) (request_id : String) (promptLen : ℕ)
    (outcome : HttpOutcome) : RequestMetrics :=
  match outcome with
  | HttpOutcome.exn msg =>
      { request_id := request_id, start_time := clock.t0,
        end_time := clock.endT, error := some msg }
  | HttpOutcome.resp status body lines =>
      if status ≠ 200 then
        { request_id := request_id, start_time := clock.t0,
          end_time := clock.endT,
          error := some ("HTTP " ++ toString status ++ ": " ++ body) }
      else
        let outTok : ℕ := outputLength lines / 4
        let e2e : ℚ := (clock.endT - clock.start) * 1000
        { request_id := request_id, start_time := clock.t0,
          end_time := clock.endT,
          ttft_ms := if hasContent lines then
            (clock.firstTok - clock.start) * 1000 else 0,
          e2e_latency_ms := e2e,
          output_tokens := outTok,
          input_tokens := promptLen / 4,
          tokens_per_second := if 0 < e2e then ((outTok : ℚ) / e2e) * 1000
            else 0,
          error := none }

/-- Python truthiness of the `error` field: `not m.error` is false exactly
when `error` is a non-empty string. -/
def pyTruthy : Option String → Bool
  | none => false
  | some s => !(s == "")

/-- `TestResult` from `benchmark/load_test.py`.  The `config` field (the
configuration dict passed through unchanged) is omitted: no claim touches
it. -/
structure TestResult where
  timestamp : String
  duration_seconds : ℚ
  total_requests : ℕ
  successful_requests : ℕ
  failed_requests : ℕ
  throughput_rps : ℚ
  request_metrics : List RequestMetrics
deriving DecidableEq

/-- The result-aggregation tail of `run_concurrent_test`
(`benchmark/load_test.py`, lines 238-257): given the list of
`RequestMetrics` produced by `asyncio.gather` over the `num_requests`
dispatched tasks and the measured wall-clock duration, it partitions the
metrics by `error` truthiness and builds the `TestResult`.  The dispatch
itself (semaphore gating) is modelled by `Dispatch.DispatchStep` below. -/
def run_concurrent_test (timestamp : String) (num_requests : ℕ)
    (all_metrics : List RequestMetrics) (duration : ℚ) : TestResult :=
  let successful := all_metrics.filter (fun m => !(pyTruthy m.error))
  let failed := all_metrics.filter (fun m => pyTruthy m.error)
  let throughput : ℚ :=
    if 0 < duration then (successful.length : ℚ) / duration else 0
  { timestamp := timestamp, duration_seconds := duration,
    total_requests := num_requests,
    successful_requests := successful.length,
    failed_requests := failed.length,
    throughput_rps := throughput,
    request_metrics := successful }

/-- `Statistics` from `benchmark/load_test.py`. -/
structure Statistics where
  avg_latency_ms : ℚ
  p50_latency_ms : ℚ
  p95_latency_ms : ℚ
  p99_latency_ms : ℚ
  avg_ttft_ms : ℚ
  p50_ttft_ms : ℚ
  p95_ttft_ms : ℚ
  p99_ttft_ms : ℚ
  avg_tokens_per_second : ℚ
  throughput_rps : ℚ
deriving DecidableEq

/-- The local helper `percentile` in `calculate_statistics`:
`float(np.percentile(data, p)) if data else 0.0`. -/
def percentileOrZero (data : List ℚ) (p : ℤ) : ℚ :=
  if data = [] then 0 else Numpy.np_percentile data (p : ℚ)

/-- `float(np.mean(data)) if data else 0.0` as used in
`calculate_statistics`. -/
def meanOrZero (data : List ℚ) : ℚ :=
  if data = [] then 0 else Numpy.np_mean data

/-- `calculate_statistics` from `benchmark/load_test.py`. -/
def calculate_statistics (metrics : List RequestMetrics)
    (throughput_rps : ℚ) : Statistics :=
  if metrics = [] then
    { avg_latency_ms := 0, p50_latency_ms := 0, p95_latency_ms := 0,
      p99_latency_ms := 0, avg_ttft_ms := 0, p50_ttft_ms := 0,
      p95_ttft_ms := 0, p99_ttft_ms := 0, avg_tokens_per_second := 0,
      throughput_rps := throughput_rps }
  else
    let latencies :=
      (metrics.filter (fun m => 0 < m.e2e_latency_ms)).map
        (fun m => m.e2e_latency_ms)
    let ttfts :=
      (metrics.filter (fun m => 0 < m.ttft_ms)).map (fun m => m.ttft_ms)
    let tps :=
      (metrics.filter (fun m => 0 < m.tokens_per_second)).map
        (fun m => m.tokens_per_second)
    { avg_latency_ms := meanOrZero latencies,
      p50_latency_ms := percentileOrZero latencies 50,
      p95_latency_ms := percentileOrZero latencies 95,
      p99_latency_ms := percentileOrZero latencies 99,
      avg_ttft_ms := meanOrZero ttfts,
      p50_ttft_ms := percentileOrZero ttfts 50,
      p95_ttft_ms := percentileOrZero ttfts 95,
      p99_ttft_ms := percentileOrZero ttfts 99,
      avg_tokens_per_second := meanOrZero tps,
      throughput_rps := throughput_rps }

end LoadTest

namespace Collector

/-- One time series returned by a Prometheus range query: its list of
`[timestamp, value]` samples.  A sample value is `none` when the sample
string is `"None"` (the source skips those), otherwise the parsed number. -/
structure Series where
  values : List (Option ℚ)
deriving DecidableEq

/-- The per-metric extraction logic of `collect_vllm_metrics`
(`benchmark/metrics/collector.py`, lines 131-148).  The argument is the
outcome of `query_prometheus`: `none` when the query failed (exception,
non-success status or missing data), otherwise the `result` list of
series.  A present but empty series list behaves like a failure (`None` in
the source); a series with no samples, or with only `"None"` samples,
yields `0.0`; otherwise the samples are averaged. -/
def extractMetric : Option (List Series) → Option ℚ
  | some (s :: _) =>
      if s.values = [] then some 0
      else
        let numeric := s.values.filterMap id
        if numeric = [] then some 0
        else some (numeric.sum / (numeric.length : ℚ))
  | _ => none

/-- The metric names of the fixed `VLLM_QUERIES` table in
`benchmark/metrics/collector.py`. -/
def vllm_query_names : List String :=
  ["request_throughput", "avg_ttft", "p95_ttft", "avg_latency",
   "p95_latency", "gpu_cache_usage", "queue_size", "token_throughput"]

/-- `collect_vllm_metrics` from `benchmark/metrics/collector.py`: one
range query per entry of the fixed table, each reduced by
`extractMetric`.  The HTTP layer of `query_prometheus` is abstracted into
the oracle `queryResult` from metric name to query outcome. -/
def collect_vllm_metrics (queryResult : String → Option (List Series)) :
    List (String × Option ℚ) :=
  vllm_query_names.map (fun name => (name, extractMetric (queryResult name)))

end Collector

namespace Dispatch

/-- The dispatch state of the measured phase of `run_concurrent_test`:
how many of the `N` `bounded_request` tasks are still queued on the
semaphore, how many are inside `async with semaphore` (an in-flight
`send_request` call), and how many have completed. -/
structure DispatchState where
  waiting : ℕ
  inflight : ℕ
  completed : ℕ
deriving DecidableEq

/-- The interleaving semantics of the semaphore-bounded dispatch in
`run_concurrent_test` (`benchmark/load_test.py`, lines 225-236):
`asyncio.Semaphore(concurrency)` admits a queued task only while fewer
than `C` tasks hold the semaphore, and a completing task releases its
slot. -/
inductive DispatchStep (C : ℕ) : DispatchState → DispatchState → Prop
  | acquire (s : DispatchState) (hw : 0 < s.waiting) (hc : s.inflight < C) :
      DispatchStep C s ⟨s.waiting - 1, s.inflight + 1, s.completed⟩
  | complete (s : DispatchState) (hi : 0 < s.inflight) :
      DispatchStep C s ⟨s.waiting, s.inflight - 1, s.completed + 1⟩

/-- States reachable from the start of the measured phase: all `N`
requests queued, none in flight. -/
def Reachable (C N : ℕ) (s : DispatchState) : Prop :=
  Relation.ReflTransGen (DispatchStep C) ⟨N, 0, 0⟩ s

end Dispatch


/-! ## Helper lemmas -/

theorem length_filter_not_add_length_filter {α : Type} (l : List α)
    (p : α → Bool) :
    (l.filter (fun a => !(p a))).length + (l.filter p).length = l.length := by
  induction l with
  | nil => rfl
  | cons a t ih =>
      by_cases h : p a = true <;>
        simp only [List.filter_cons, h, Bool.not_true, Bool.not_false,
          List.length_cons, Bool.false_eq_true, Bool.true_eq_false,
          ite_true, ite_false] <;> omega

theorem string_eq_empty_of_length_eq_zero (s : String) (h : s.length = 0) :
    s = "" := by
  cases s with
  | mk data =>
      have hd : data = [] := List.length_eq_zero.mp h
      simp [hd]

theorem sum_map_length_pos_iff (cs : List String) :
    0 < (cs.map String.length).sum ↔
      cs.any (fun c => !(c == "")) = true := by
  induction cs with
  | nil => simp
  | cons a t ih =>
      simp only [List.map_cons, List.sum_cons, List.any_cons,
        Bool.or_eq_true, ← ih]
      have hne : ((!(a == "")) = true) ↔ a ≠ "" := by
        rw [show (!(a == "")) = (a != "") from rfl, bne_iff_ne]
      have hlen : a ≠ "" ↔ 0 < a.length := by
        constructor
        · intro h
          by_contra hl
          exact h (string_eq_empty_of_length_eq_zero a (by omega))
        · intro h he
          subst he
          exact (by decide : ¬ 0 < ("" : String).length) h
      rw [hne, hlen]
      omega

theorem outputLength_pos_iff (lines : List LoadTest.LineEvent) :
    0 < LoadTest.outputLength lines ↔ LoadTest.hasContent lines = true :=
  sum_map_length_pos_iff (LoadTest.streamContents lines)

theorem elaborationPhrase_length (topic : List Char) :
    (LoadTest.elaborationPhrase topic).length = 15 + topic.length := by
  have h13 : ("Elaborate on ".toList).length = 13 := rfl
  have h2 : (". ".toList).length = 2 := rfl
  simp only [LoadTest.elaborationPhrase, List.length_append, h13, h2]
  omega

theorem padLoop_length_ge (il : ℤ) (topic prompt : List Char) :
    prompt.length ≤ (LoadTest.padLoop il topic prompt).length := by
  have main : ∀ n p, ((10 * il - 3 * ((p : List Char).length : ℤ)).toNat ≤ n) →
      p.length ≤ (LoadTest.padLoop il topic p).length := by
    intro n
    induction n with
    | zero =>
        intro p hp
        have hc : ¬ 3 * ((p.length : ℤ)) < 10 * il := by omega
        rw [LoadTest.padLoop, dif_neg hc]
    | succ n ih =>
        intro p hp
        by_cases hc : 3 * ((p.length : ℤ)) < 10 * il
        · rw [LoadTest.padLoop, dif_pos hc]
          have hlen : (p ++ LoadTest.elaborationPhrase topic).length =
              p.length + (15 + topic.length) := by
            rw [List.length_append, elaborationPhrase_length]
          have hrec := ih (p ++ LoadTest.elaborationPhrase topic) (by
            rw [hlen]; push_cast; omega)
          calc p.length ≤ (p ++ LoadTest.elaborationPhrase topic).length := by
                simp
            _ ≤ _ := hrec
        · rw [LoadTest.padLoop, dif_neg hc]
  exact main ((10 * il - 3 * ((prompt.length : ℤ))).toNat) prompt le_rfl

theorem extractMetric_eq_none_iff (r : Option (List Collector.Series)) :
    Collector.extractMetric r = none ↔ r = none ∨ r = some [] := by
  match r with
  | none => simp [Collector.extractMetric]
  | some [] => simp [Collector.extractMetric]
  | some (s :: t) =>
      simp only [Collector.extractMetric]
      constructor
      · intro h
        split at h
        · exact absurd h (by simp)
        · split at h <;> exact absurd h (by simp)
      · rintro (h | h) <;> simp_all

/-! ## Claim theorems -/

/-- C1: during the measured phase of `run_concurrent_test` with concurrency
`C`, every state reachable under the semaphore-bounded dispatch has at most
`C` requests in flight (and every further step keeps the bound), and as
each running request completes, the next queued one is admitted: after a
completion step the acquire transition is enabled and admits a queued
request. -/
theorem semaphore_bounds_inflight (C N : ℕ) (s : Dispatch.DispatchState)
    (h : Dispatch.Reachable C N s) :
    s.inflight ≤ C ∧
    (∀ t, Dispatch.DispatchStep C s t → t.inflight ≤ C) ∧
    (0 < s.inflight → 0 < s.waiting →
      Dispatch.DispatchStep C ⟨s.waiting, s.inflight - 1, s.completed + 1⟩
        ⟨s.waiting - 1, s.inflight, s.completed + 1⟩) := by
  have step_bound : ∀ a b : Dispatch.DispatchState, a.inflight ≤ C →
      Dispatch.DispatchStep C a b → b.inflight ≤ C := by
    intro a b ha hstep
    cases hstep with
    | acquire hw hc => exact hc
    | complete hi => exact Nat.le_trans (Nat.sub_le _ _) ha
  have inv : s.inflight ≤ C := by
    induction h with
    | refl => exact Nat.zero_le C
    | tail hsteps hstep ih => exact step_bound _ _ ih hstep
  refine ⟨inv, fun t ht => step_bound _ _ inv ht, fun hi hw => ?_⟩
  have hstep := @Dispatch.DispatchStep.acquire C
    ⟨s.waiting, s.inflight - 1, s.completed + 1⟩ hw (by
      show s.inflight - 1 < C
      omega)
  have heq : s.inflight - 1 + 1 = s.inflight := by omega
  rw [show (⟨s.waiting, s.inflight - 1, s.completed + 1⟩ :
      Dispatch.DispatchState).waiting - 1 = s.waiting - 1 from rfl] at hstep
  simpa [heq] using hstep

/-- Concrete run: from 50 queued requests and concurrency 5, one acquire step
reaches a state with one request in flight, within the bound. -/
theorem semaphore_bounds_inflight_witness :
    Dispatch.Reachable 5 50 ⟨49, 1, 0⟩ ∧
      (⟨49, 1, 0⟩ : Dispatch.DispatchState).inflight ≤ 5 := by
  have hreach : Dispatch.Reachable 5 50 ⟨49, 1, 0⟩ :=
    Relation.ReflTransGen.single
      (@Dispatch.DispatchStep.acquire 5 ⟨50, 0, 0⟩ (by decide) (by decide))
  exact ⟨hreach, (semaphore_bounds_inflight 5 50 ⟨49, 1, 0⟩ hreach).1⟩

/-- C2 (amended): a metric of the collector's fixed table is `None` exactly
when its range query fails or returns no series; a query that returns a
series whose sample list is empty yields `0.0` for the metric, not
`None`. -/
theorem collect_vllm_metrics_null_iff
    (queryResult : String → Option (List Collector.Series))
    (name : String) (v : Option ℚ)
    (hmem : (name, v) ∈ Collector.collect_vllm_metrics queryResult) :
    (v = none ↔ queryResult name = none ∨ queryResult name = some []) ∧
    (∀ s rest, queryResult name = some (s :: rest) → s.values = [] →
      v = some 0) := by
  have hv : v = Collector.extractMetric (queryResult name) := by
    simp only [Collector.collect_vllm_metrics, List.mem_map] at hmem
    obtain ⟨n, hn, heq⟩ := hmem
    injection heq with h1 h2
    subst h1
    exact h2.symm
  constructor
  · rw [hv]
    exact extractMetric_eq_none_iff _
  · intro s rest hq hvals
    rw [hv, hq]
    simp [Collector.extractMetric, hvals]

/-- Concrete run: with every query failing, the first collected metric is
`None`. -/
theorem collect_vllm_metrics_null_iff_witness :
    (("request_throughput", (none : Option ℚ)) ∈
        Collector.collect_vllm_metrics (fun _ => none)) ∧
      ((none : Option ℚ) = none ↔
        (none : Option (List Collector.Series)) = none ∨
          (none : Option (List Collector.Series)) = some []) := by
  have hmem : ("request_throughput", (none : Option ℚ)) ∈
      Collector.collect_vllm_metrics (fun _ => none) := by decide
  exact ⟨hmem, (collect_vllm_metrics_null_iff (fun _ => none)
    "request_throughput" none hmem).1⟩

/-- C2 counterexample: a query that succeeds with one series holding no
samples within the window yields `0.0` for the metric — not `None` as the
claim states. -/
theorem collect_vllm_metrics_zero_on_empty_samples :
    (("request_throughput", (some 0 : Option ℚ)) ∈
        Collector.collect_vllm_metrics
          (fun _ => some [Collector.Series.mk []])) ∧
      (some 0 : Option ℚ) ≠ none := by
  exact ⟨by decide, by decide⟩

/-- C8: `calculate_percentiles` follows the linear-interpolation percentile
over the sorted samples: every requested percentile of the empty list is
`0.0`; the 50th percentile of `[10,20,30,40,50]` is `30.0` (rank `2`,
no interpolation) and its 95th percentile is `48.0` (rank `3.8`,
interpolated between `40` and `50`). -/
theorem calculate_percentiles_linear (ps : List ℤ) :
    Calculator.calculate_percentiles [] ps = ps.map (fun p => (p, 0)) ∧
    Calculator.calculate_percentiles [10, 20, 30, 40, 50] [50] =
      [(50, 30)] ∧
    Calculator.calculate_percentiles [10, 20, 30, 40, 50] [95] =
      [(95, 48)] := by
  have hsort : List.insertionSort (· ≤ ·) ([10, 20, 30, 40, 50] : List ℚ) =
      [10, 20, 30, 40, 50] := by
    norm_num [List.insertionSort, List.orderedInsert]
  have h50 : Numpy.np_percentile [10, 20, 30, 40, 50] 50 = 30 := by
    simp only [Numpy.np_percentile, hsort]
    rw [show ([10, 20, 30, 40, 50] : List ℚ).length = 5 from rfl]
    rw [if_neg (by norm_num)]
    rw [show (⌊(50 : ℚ) / 100 * (((5 : ℕ) : ℚ) - 1)⌋ : ℤ) = 2 from by
      push_cast; norm_num [Int.floor_eq_iff]]
    rw [show Int.toNat 2 = 2 from rfl]
    rw [show ((2 : ℕ) + 1) ⊓ (5 - 1) = 3 from rfl]
    rw [show ([10, 20, 30, 40, 50] : List ℚ).getD 2 0 = 30 from rfl]
    rw [show ([10, 20, 30, 40, 50] : List ℚ).getD 3 0 = 40 from rfl]
    push_cast
    norm_num
  have h95 : Numpy.np_percentile [10, 20, 30, 40, 50] 95 = 48 := by
    simp only [Numpy.np_percentile, hsort]
    rw [show ([10, 20, 30, 40, 50] : List ℚ).length = 5 from rfl]
    rw [if_neg (by norm_num)]
    rw [show (⌊(95 : ℚ) / 100 * (((5 : ℕ) : ℚ) - 1)⌋ : ℤ) = 3 from by
      push_cast; norm_num [Int.floor_eq_iff]]
    rw [show Int.toNat 3 = 3 from rfl]
    rw [show ((3 : ℕ) + 1) ⊓ (5 - 1) = 4 from rfl]
    rw [show ([10, 20, 30, 40, 50] : List ℚ).getD 3 0 = 40 from rfl]
    rw [show ([10, 20, 30, 40, 50] : List ℚ).getD 4 0 = 50 from rfl]
    push_cast
    norm_num
  refine ⟨by simp [Calculator.calculate_percentiles], ?_, ?_⟩ <;>
    simp [Calculator.calculate_percentiles, h50, h95]

theorem pySliceTo_ne_nil (l : List Char) (k : ℤ) (hk : 1 ≤ k)
    (hl : l ≠ []) : LoadTest.pySliceTo l k ≠ [] := by
  unfold LoadTest.pySliceTo
  rw [if_pos (by omega : (0 : ℤ) ≤ k)]
  intro hcontra
  have hlen := congrArg List.length hcontra
  rw [List.length_take] at hlen
  simp only [List.length_nil, Nat.min_eq_zero_iff] at hlen
  rcases hlen with h0 | h0
  · omega
  · exact hl (List.length_eq_zero.mp h0)

/-- C3 (amended): `generate_prompt` raises no error (the model is a total
function), and it returns a non-empty string whenever the fixed branch
applies (mode `"fixed"` with a non-empty `fixed_prompt`) or
`input_length ≥ 1`; for non-positive `input_length` in the generated
branch the final truncation `prompt[:input_length * 3]` can produce the
empty string. -/
theorem generate_prompt_nonempty (ptype : String) (fixed : List Char)
    (il : ℤ) (idx : ℕ)
    (h : 1 ≤ il ∨ (ptype = "fixed" ∧ fixed ≠ [])) :
    LoadTest.generate_prompt ptype fixed il idx ≠ [] := by
  unfold LoadTest.generate_prompt
  by_cases hfix : ptype = "fixed" ∧ fixed ≠ []
  · rw [if_pos hfix]
    exact hfix.2
  · rw [if_neg hfix]
    rcases h with hil | hfx
    · refine pySliceTo_ne_nil _ _ (by omega) ?_
      intro hc
      have hle := padLoop_length_ge il
        (LoadTest.topics.getD (idx % LoadTest.topics.length) [])
        (LoadTest.basePhrase ++
          LoadTest.topics.getD (idx % LoadTest.topics.length) [] ++
          ". ".toList)
      rw [hc] at hle
      have hbp : ("Please explain the following concept in detail: "
          |>.toList).length = 48 := rfl
      simp only [List.length_nil, List.length_append, LoadTest.basePhrase,
        hbp] at hle
      omega
    · exact absurd hfx hfix

/-- Concrete run: the default configuration (`input_length = 512`, random
mode) produces a non-empty prompt. -/
theorem generate_prompt_nonempty_witness :
    ((1 : ℤ) ≤ 512 ∨ ("random" = "fixed" ∧ "x".toList ≠ [])) ∧
      LoadTest.generate_prompt "random" "x".toList 512 0 ≠ [] :=
  ⟨Or.inl (by norm_num),
    generate_prompt_nonempty "random" "x".toList 512 0 (Or.inl (by norm_num))⟩

/-- C3 counterexample: with `input_length = 0` (an integer allowed by the
claim) and random mode, `generate_prompt` truncates to `0 * 3 = 0`
characters and returns the empty string. -/
theorem generate_prompt_empty_at_zero_length :
    LoadTest.generate_prompt "random" [] 0 0 = [] := by
  unfold LoadTest.generate_prompt
  rw [if_neg (by simp)]
  unfold LoadTest.pySliceTo
  rw [show ((0 : ℤ) * 3) = 0 from rfl]
  rw [if_pos le_rfl]
  simp

/-- C4: `send_request` never raises (the model is a total function); every
failure is captured in `error`; whenever `error` is set the latency, TTFT
and token fields are all zero; a client exception yields its message as
the error; a non-success HTTP status yields an error embedding the status
and body, which is truthy and therefore counts toward
`failed_requests` in the aggregation. -/
theorem send_request_error_handling (clock : LoadTest.Clock)
    (rid : String) (promptLen : ℕ) (outcome : LoadTest.HttpOutcome) :
    ((LoadTest.send_request clock rid promptLen outcome).error ≠ none →
      (LoadTest.send_request clock rid promptLen outcome).ttft_ms = 0 ∧
      (LoadTest.send_request clock rid promptLen outcome).e2e_latency_ms
        = 0 ∧
      (LoadTest.send_request clock rid promptLen outcome).output_tokens
        = 0 ∧
      (LoadTest.send_request clock rid promptLen outcome).input_tokens
        = 0 ∧
      (LoadTest.send_request clock rid promptLen outcome).tokens_per_second
        = 0) ∧
    (∀ msg, outcome = LoadTest.HttpOutcome.exn msg →
      (LoadTest.send_request clock rid promptLen outcome).error
        = some msg) ∧
    (∀ status body lines,
      outcome = LoadTest.HttpOutcome.resp status body lines →
      status ≠ 200 →
      (LoadTest.send_request clock rid promptLen outcome).error =
        some ("HTTP " ++ toString status ++ ": " ++ body) ∧
      LoadTest.pyTruthy
        (LoadTest.send_request clock rid promptLen outcome).error = true ∧
      ∀ ts n rest duration,
        (LoadTest.run_concurrent_test ts n
            (LoadTest.send_request clock rid promptLen outcome :: rest)
            duration).failed_requests =
          (LoadTest.run_concurrent_test ts n rest
            duration).failed_requests + 1) := by
  refine ⟨?_, ?_, ?_⟩
  · intro herr
    match outcome with
    | LoadTest.HttpOutcome.exn msg =>
        simp [LoadTest.send_request]
    | LoadTest.HttpOutcome.resp status body lines =>
        by_cases hs : status = 200
        · subst hs
          simp [LoadTest.send_request] at herr
        · simp [LoadTest.send_request, if_pos hs, hs]
  · intro msg hout
    subst hout
    simp [LoadTest.send_request]
  · intro status body lines hout hs
    subst hout
    have herr : (LoadTest.send_request clock rid promptLen
        (LoadTest.HttpOutcome.resp status body lines)).error =
        some ("HTTP " ++ toString status ++ ": " ++ body) := by
      simp [LoadTest.send_request, hs]
    have hne : ("HTTP " ++ toString status ++ ": " ++ body) ≠ "" := by
      intro hcontra
      have hlen := congrArg String.length hcontra
      simp only [String.length_append] at hlen
      have h5 : ("HTTP " : String).length = 5 := rfl
      rw [h5] at hlen
      simp at hlen
    have htruthy : LoadTest.pyTruthy (LoadTest.send_request clock rid
        promptLen (LoadTest.HttpOutcome.resp status body lines)).error
        = true := by
      rw [herr]
      simp only [LoadTest.pyTruthy]
      rw [show (!(("HTTP " ++ toString status ++ ": " ++ body) == "")) =
        (("HTTP " ++ toString status ++ ": " ++ body) != "") from rfl]
      exact bne_iff_ne.mpr hne
    refine ⟨herr, htruthy, ?_⟩
    intro ts n rest duration
    simp only [LoadTest.run_concurrent_test, List.filter_cons, htruthy,
      ite_true, List.length_cons]

/-- Concrete run: an HTTP 500 response is recorded as an error with zero
metric fields and counts toward the failed requests. -/
theorem send_request_error_handling_witness :
    ((LoadTest.send_request ⟨0, 0, 0, 1⟩ "r" 8
        (LoadTest.HttpOutcome.resp 500 "oops" [])).error ≠ none) ∧
    ((LoadTest.send_request ⟨0, 0, 0, 1⟩ "r" 8
        (LoadTest.HttpOutcome.resp 500 "oops" [])).ttft_ms = 0 ∧
      (LoadTest.send_request ⟨0, 0, 0, 1⟩ "r" 8
        (LoadTest.HttpOutcome.resp 500 "oops" [])).e2e_latency_ms = 0 ∧
      (LoadTest.send_request ⟨0, 0, 0, 1⟩ "r" 8
        (LoadTest.HttpOutcome.resp 500 "oops" [])).output_tokens = 0 ∧
      (LoadTest.send_request ⟨0, 0, 0, 1⟩ "r" 8
        (LoadTest.HttpOutcome.resp 500 "oops" [])).input_tokens = 0 ∧
      (LoadTest.send_request ⟨0, 0, 0, 1⟩ "r" 8
        (LoadTest.HttpOutcome.resp 500 "oops" [])).tokens_per_second
        = 0) := by
  have hne : (LoadTest.send_request ⟨0, 0, 0, 1⟩ "r" 8
      (LoadTest.HttpOutcome.resp 500 "oops" [])).error ≠ none := by
    simp [LoadTest.send_request]
  exact ⟨hne, (send_request_error_handling ⟨0, 0, 0, 1⟩ "r" 8
    (LoadTest.HttpOutcome.resp 500 "oops" [])).1 hne⟩

/-- C5: for every completed run, `successful + failed = total = N` (with
`N` the number of dispatched requests), the result keeps exactly the
successful (error-free) metrics, and for positive wall-clock duration the
throughput is `successful / duration`. -/
theorem run_concurrent_test_invariants (ts : String) (N : ℕ)
    (all_metrics : List LoadTest.RequestMetrics) (duration : ℚ)
    (hlen : all_metrics.length = N) (hd : 0 < duration) :
    (LoadTest.run_concurrent_test ts N all_metrics
        duration).successful_requests +
      (LoadTest.run_concurrent_test ts N all_metrics
        duration).failed_requests =
      (LoadTest.run_concurrent_test ts N all_metrics
        duration).total_requests ∧
    (LoadTest.run_concurrent_test ts N all_metrics
      duration).total_requests = N ∧
    (LoadTest.run_concurrent_test ts N all_metrics
      duration).request_metrics =
        all_metrics.filter (fun m => !(LoadTest.pyTruthy m.error)) ∧
    (LoadTest.run_concurrent_test ts N all_metrics
      duration).throughput_rps =
        ((LoadTest.run_concurrent_test ts N all_metrics
          duration).successful_requests : ℚ) / duration := by
  refine ⟨?_, rfl, rfl, ?_⟩
  · show (all_metrics.filter (fun m => !(LoadTest.pyTruthy m.error))).length
        + (all_metrics.filter (fun m => LoadTest.pyTruthy m.error)).length
        = N
    rw [← hlen]
    exact length_filter_not_add_length_filter all_metrics
      (fun m => LoadTest.pyTruthy m.error)
  · show (if 0 < duration then _ else _) = _
    rw [if_pos hd]
    rfl

/-- Concrete run: two dispatched requests, one failed, satisfy the count
and throughput invariants. -/
theorem run_concurrent_test_invariants_witness :
    (([{ request_id := "a", start_time := 0, end_time := 1 },
       { request_id := "b", start_time := 0, end_time := 1,
         error := some "x" }] :
        List LoadTest.RequestMetrics).length = 2 ∧ (0 : ℚ) < 4) ∧
    (LoadTest.run_concurrent_test "t" 2
        [{ request_id := "a", start_time := 0, end_time := 1 },
         { request_id := "b", start_time := 0, end_time := 1,
           error := some "x" }] 4).successful_requests +
      (LoadTest.run_concurrent_test "t" 2
        [{ request_id := "a", start_time := 0, end_time := 1 },
         { request_id := "b", start_time := 0, end_time := 1,
           error := some "x" }] 4).failed_requests =
      (LoadTest.run_concurrent_test "t" 2
        [{ request_id := "a", start_time := 0, end_time := 1 },
         { request_id := "b", start_time := 0, end_time := 1,
           error := some "x" }] 4).total_requests := by
  refine ⟨⟨rfl, by norm_num⟩, ?_⟩
  exact (run_concurrent_test_invariants "t" 2
    [{ request_id := "a", start_time := 0, end_time := 1 },
     { request_id := "b", start_time := 0, end_time := 1,
       error := some "x" }] 4 rfl (by norm_num)).1

/-- C6: for a successful request (status 200, no exception) under a
monotone clock, the error field is unset, `ttft_ms ≤ e2e_latency_ms`
whenever the accumulated output content is non-empty, both are
non-negative, `end_time ≥ start_time`, and `tokens_per_second` is
`output_tokens / e2e_latency_ms * 1000` for positive latency and `0`
otherwise. -/
theorem send_request_success_metrics (clock : LoadTest.Clock)
    (hmono : clock.Monotone) (rid : String) (promptLen : ℕ)
    (body : String) (lines : List LoadTest.LineEvent) :
    (LoadTest.send_request clock rid promptLen
        (LoadTest.HttpOutcome.resp 200 body lines)).error = none ∧
    (0 < LoadTest.outputLength lines →
      (LoadTest.send_request clock rid promptLen
          (LoadTest.HttpOutcome.resp 200 body lines)).ttft_ms ≤
        (LoadTest.send_request clock rid promptLen
          (LoadTest.HttpOutcome.resp 200 body lines)).e2e_latency_ms) ∧
    0 ≤ (LoadTest.send_request clock rid promptLen
        (LoadTest.HttpOutcome.resp 200 body lines)).ttft_ms ∧
    0 ≤ (LoadTest.send_request clock rid promptLen
        (LoadTest.HttpOutcome.resp 200 body lines)).e2e_latency_ms ∧
    (LoadTest.send_request clock rid promptLen
        (LoadTest.HttpOutcome.resp 200 body lines)).start_time ≤
      (LoadTest.send_request clock rid promptLen
        (LoadTest.HttpOutcome.resp 200 body lines)).end_time ∧
    (0 < (LoadTest.send_request clock rid promptLen
        (LoadTest.HttpOutcome.resp 200 body lines)).e2e_latency_ms →
      (LoadTest.send_request clock rid promptLen
          (LoadTest.HttpOutcome.resp 200 body lines)).tokens_per_second =
        ((LoadTest.send_request clock rid promptLen
            (LoadTest.HttpOutcome.resp 200 body lines)).output_tokens : ℚ)
          / (LoadTest.send_request clock rid promptLen
              (LoadTest.HttpOutcome.resp 200 body lines)).e2e_latency_ms
          * 1000) ∧
    ((LoadTest.send_request clock rid promptLen
        (LoadTest.HttpOutcome.resp 200 body lines)).e2e_latency_ms ≤ 0 →
      (LoadTest.send_request clock rid promptLen
        (LoadTest.HttpOutcome.resp 200 body lines)).tokens_per_second
        = 0) := by
  obtain ⟨h01, h12, h23⟩ := hmono
  have hstart_end : clock.start ≤ clock.endT := le_trans h12 h23
  have he2e : (LoadTest.send_request clock rid promptLen
      (LoadTest.HttpOutcome.resp 200 body lines)).e2e_latency_ms =
      (clock.endT - clock.start) * 1000 := by
    simp [LoadTest.send_request]
  have httft : (LoadTest.send_request clock rid promptLen
      (LoadTest.HttpOutcome.resp 200 body lines)).ttft_ms =
      (if LoadTest.hasContent lines then
        (clock.firstTok - clock.start) * 1000 else 0) := by
    simp [LoadTest.send_request]
  have htps : (LoadTest.send_request clock rid promptLen
      (LoadTest.HttpOutcome.resp 200 body lines)).tokens_per_second =
      (if 0 < (clock.endT - clock.start) * 1000 then
        ((LoadTest.outputLength lines / 4 : ℕ) : ℚ) /
          ((clock.endT - clock.start) * 1000) * 1000 else 0) := by
    simp [LoadTest.send_request]
  have hout : (LoadTest.send_request clock rid promptLen
      (LoadTest.HttpOutcome.resp 200 body lines)).output_tokens =
      LoadTest.outputLength lines / 4 := by
    simp [LoadTest.send_request]
  refine ⟨by simp [LoadTest.send_request], ?_, ?_, ?_, ?_, ?_, ?_⟩
  · intro hpos
    have hc : LoadTest.hasContent lines = true :=
      (outputLength_pos_iff lines).mp hpos
    rw [httft, he2e, if_pos hc]
    have : clock.firstTok - clock.start ≤ clock.endT - clock.start :=
      sub_le_sub_right h23 _
    nlinarith
  · rw [httft]
    by_cases hc : LoadTest.hasContent lines = true
    · rw [if_pos hc]
      have : (0 : ℚ) ≤ clock.firstTok - clock.start := by linarith
      nlinarith
    · rw [if_neg hc]
  · rw [he2e]
    have : (0 : ℚ) ≤ clock.endT - clock.start := by linarith
    nlinarith
  · show clock.t0 ≤ clock.endT
    linarith
  · intro hpos
    rw [he2e] at hpos
    rw [htps, he2e, hout, if_pos hpos]
  · intro hnonpos
    rw [he2e] at hnonpos
    rw [htps, if_neg (by linarith)]

/-- Concrete run: a stream delivering the chunk `"hello"` under the clock
`(0, 1, 2, 3)` satisfies all the success-path metric relations. -/
theorem send_request_success_metrics_witness :
    (LoadTest.Clock.Monotone ⟨0, 1, 2, 3⟩ ∧
      0 < LoadTest.outputLength [LoadTest.LineEvent.chunk "hello"]) ∧
    (LoadTest.send_request ⟨0, 1, 2, 3⟩ "r" 8
        (LoadTest.HttpOutcome.resp 200 ""
          [LoadTest.LineEvent.chunk "hello"])).ttft_ms ≤
      (LoadTest.send_request ⟨0, 1, 2, 3⟩ "r" 8
        (LoadTest.HttpOutcome.resp 200 ""
          [LoadTest.LineEvent.chunk "hello"])).e2e_latency_ms := by
  have hm : LoadTest.Clock.Monotone ⟨0, 1, 2, 3⟩ := by
    refine ⟨by norm_num, by norm_num, by norm_num⟩
  have hp : 0 < LoadTest.outputLength [LoadTest.LineEvent.chunk "hello"] := by
    simp only [LoadTest.outputLength, LoadTest.streamContents,
      List.map_cons, List.map_nil, List.sum_cons, List.sum_nil]
    rw [show ("hello" : String).length = 5 from rfl]
    omega
  exact ⟨⟨hm, hp⟩, ((send_request_success_metrics ⟨0, 1, 2, 3⟩ hm "r" 8 ""
    [LoadTest.LineEvent.chunk "hello"]).2.1) hp⟩

/-- C7: `verify_reproducibility` returns
`(True, 0.0, "Insufficient data for variance check")` for fewer than 2
measurements; for at least 2 it returns `reproducible = true` exactly when
the coefficient of variation is at most the threshold, reports that CV as
its second component, and in both branches the message embeds the
rendered CV and threshold. -/
theorem verify_reproducibility_spec (l : List ℚ) (maxCv : ℚ) :
    (l.length < 2 →
      Calculator.verify_reproducibility l maxCv =
        (true, 0, "Insufficient data for variance check")) ∧
    (2 ≤ l.length →
      ((Calculator.verify_reproducibility l maxCv).1 = true ↔
        Calculator.calculate_coefficient_of_variation l ≤ (maxCv : ℝ)) ∧
      (Calculator.verify_reproducibility l maxCv).2.1 =
        Calculator.calculate_coefficient_of_variation l ∧
      ∃ pre mid,
        (Calculator.verify_reproducibility l maxCv).2.2 =
          pre ++ Calculator.pyFormat2f
              (Calculator.calculate_coefficient_of_variation l) ++
            mid ++ Calculator.qRender maxCv ++ "%)") := by
  constructor
  · intro hlt
    simp only [Calculator.verify_reproducibility]
    rw [if_pos hlt]
  · intro hge
    have hnlt : ¬ l.length < 2 := by omega
    simp only [Calculator.verify_reproducibility]
    rw [if_neg hnlt]
    by_cases hcv : Calculator.calculate_coefficient_of_variation l ≤
        (maxCv : ℝ)
    · rw [if_pos hcv]
      exact ⟨by simp [hcv], rfl,
        ⟨"Variance within limits (CV: ", "% <= ", rfl⟩⟩
    · rw [if_neg hcv]
      exact ⟨by simp [hcv], rfl,
        ⟨"Variance too high (CV: ", "% > ", rfl⟩⟩

/-- Concrete runs: a single measurement is declared reproducible with CV
`0`; two measurements take the variance branch. -/
theorem verify_reproducibility_spec_witness :
    (([42] : List ℚ).length < 2 ∧
      Calculator.verify_reproducibility [42] 10 =
        (true, 0, "Insufficient data for variance check")) ∧
    (2 ≤ ([80, 120] : List ℚ).length ∧
      ((Calculator.verify_reproducibility [80, 120] 10).1 = true ↔
        Calculator.calculate_coefficient_of_variation [80, 120] ≤
          ((10 : ℚ) : ℝ))) := by
  refine ⟨⟨by norm_num, ?_⟩, ⟨by norm_num, ?_⟩⟩
  · exact (verify_reproducibility_spec [42] 10).1 (by norm_num)
  · exact ((verify_reproducibility_spec [80, 120] 10).2 (by norm_num)).1

/-- C9: `calculate_stddev` is the Bessel-corrected sample standard
deviation — zero on a single value, non-negative, and squaring to the
sample variance for at least 2 values; `stddev [80,120]` lies in
`(28.2842, 28.2843)`, the coefficient of variation of `[80,120]` lies in
`(28.28, 28.285)`, and the coefficient of variation is `0` whenever the
mean is `0`. -/
theorem stddev_sample_properties (x : ℚ) (l : List ℚ) :
    Calculator.calculate_stddev [x] = 0 ∧
    (2 ≤ l.length →
      0 ≤ Calculator.calculate_stddev l ∧
      Calculator.calculate_stddev l ^ 2 =
        ((Calculator.sampleVariance l : ℚ) : ℝ)) ∧
    (28.2842 < Calculator.calculate_stddev [80, 120] ∧
      Calculator.calculate_stddev [80, 120] < 28.2843) ∧
    (28.28 < Calculator.calculate_coefficient_of_variation [80, 120] ∧
      Calculator.calculate_coefficient_of_variation [80, 120] < 28.285) ∧
    (Calculator.calculate_mean l = 0 →
      Calculator.calculate_coefficient_of_variation l = 0) := by
  have h800 : Calculator.sampleVariance [80, 120] = 800 := by
    simp [Calculator.sampleVariance, Numpy.np_mean]
    norm_num
  have hstd : Calculator.calculate_stddev [80, 120] = Real.sqrt 800 := by
    simp only [Calculator.calculate_stddev]
    rw [if_neg (by simp), h800]
    norm_num
  have hmean : Calculator.calculate_mean [80, 120] = 100 := by
    simp [Calculator.calculate_mean, Numpy.np_mean]
    norm_num
  have hcv : Calculator.calculate_coefficient_of_variation [80, 120] =
      Real.sqrt 800 := by
    simp only [Calculator.calculate_coefficient_of_variation]
    rw [if_neg (by rw [hmean]; norm_num), hstd, hmean]
    push_cast
    rw [div_mul_cancel₀]
    norm_num
  refine ⟨?_, ?_, ?_, ?_, ?_⟩
  · simp [Calculator.calculate_stddev]
  · intro hge
    have hnlt : ¬ l.length < 2 := by omega
    have hvar : 0 ≤ Calculator.sampleVariance l := by
      unfold Calculator.sampleVariance
      apply div_nonneg
      · apply List.sum_nonneg
        intro y hy
        simp only [List.mem_map] at hy
        obtain ⟨z, hz, rfl⟩ := hy
        positivity
      · have hc : (2 : ℚ) ≤ (l.length : ℚ) := by exact_mod_cast hge
        linarith
    constructor
    · simp only [Calculator.calculate_stddev]
      rw [if_neg hnlt]
      exact Real.sqrt_nonneg _
    · simp only [Calculator.calculate_stddev]
      rw [if_neg hnlt]
      exact Real.sq_sqrt (by exact_mod_cast hvar)
  · rw [hstd]
    exact ⟨(Real.lt_sqrt (by norm_num)).mpr (by norm_num),
      (Real.sqrt_lt' (by norm_num)).mpr (by norm_num)⟩
  · rw [hcv]
    exact ⟨(Real.lt_sqrt (by norm_num)).mpr (by norm_num),
      (Real.sqrt_lt' (by norm_num)).mpr (by norm_num)⟩
  · intro hzero
    simp only [Calculator.calculate_coefficient_of_variation]
    rw [if_pos hzero]

/-- Concrete runs: the two-element list `[1, -1]` has mean zero, hence CV
zero, and its standard deviation squares to its sample variance. -/
theorem stddev_sample_properties_witness :
    (2 ≤ ([1, -1] : List ℚ).length ∧
      Calculator.calculate_mean [1, -1] = 0) ∧
    (0 ≤ Calculator.calculate_stddev [1, -1] ∧
      Calculator.calculate_stddev [1, -1] ^ 2 =
        ((Calculator.sampleVariance [1, -1] : ℚ) : ℝ)) ∧
    Calculator.calculate_coefficient_of_variation [1, -1] = 0 := by
  have hlen : 2 ≤ ([1, -1] : List ℚ).length := by norm_num
  have hmean : Calculator.calculate_mean [1, -1] = 0 := by
    simp [Calculator.calculate_mean, Numpy.np_mean]
  exact ⟨⟨hlen, hmean⟩, (stddev_sample_properties 7 [1, -1]).2.1 hlen,
    (stddev_sample_properties 7 [1, -1]).2.2.2.2 hmean⟩

/-- C10: `calculate_statistics` excludes non-positive samples before
aggregating — each statistic is computed from the metrics whose respective
field is strictly positive — and consequently inserting a successful
request with `ttft_ms = 0` anywhere into the collection leaves every
reported TTFT statistic unchanged. -/
theorem calculate_statistics_filters_nonpositive (tp : ℚ)
    (ms l1 l2 : List LoadTest.RequestMetrics)
    (m : LoadTest.RequestMetrics) (hm : ¬ 0 < m.ttft_ms) :
    ((LoadTest.calculate_statistics ms tp).avg_latency_ms =
        LoadTest.meanOrZero ((ms.filter
          (fun x => 0 < x.e2e_latency_ms)).map
            (fun x => x.e2e_latency_ms)) ∧
      (LoadTest.calculate_statistics ms tp).p50_latency_ms =
        LoadTest.percentileOrZero ((ms.filter
          (fun x => 0 < x.e2e_latency_ms)).map
            (fun x => x.e2e_latency_ms)) 50 ∧
      (LoadTest.calculate_statistics ms tp).p95_latency_ms =
        LoadTest.percentileOrZero ((ms.filter
          (fun x => 0 < x.e2e_latency_ms)).map
            (fun x => x.e2e_latency_ms)) 95 ∧
      (LoadTest.calculate_statistics ms tp).p99_latency_ms =
        LoadTest.percentileOrZero ((ms.filter
          (fun x => 0 < x.e2e_latency_ms)).map
            (fun x => x.e2e_latency_ms)) 99 ∧
      (LoadTest.calculate_statistics ms tp).avg_ttft_ms =
        LoadTest.meanOrZero ((ms.filter (fun x => 0 < x.ttft_ms)).map
          (fun x => x.ttft_ms)) ∧
      (LoadTest.calculate_statistics ms tp).p50_ttft_ms =
        LoadTest.percentileOrZero ((ms.filter
          (fun x => 0 < x.ttft_ms)).map (fun x => x.ttft_ms)) 50 ∧
      (LoadTest.calculate_statistics ms tp).p95_ttft_ms =
        LoadTest.percentileOrZero ((ms.filter
          (fun x => 0 < x.ttft_ms)).map (fun x => x.ttft_ms)) 95 ∧
      (LoadTest.calculate_statistics ms tp).p99_ttft_ms =
        LoadTest.percentileOrZero ((ms.filter
          (fun x => 0 < x.ttft_ms)).map (fun x => x.ttft_ms)) 99 ∧
      (LoadTest.calculate_statistics ms tp).avg_tokens_per_second =
        LoadTest.meanOrZero ((ms.filter
          (fun x => 0 < x.tokens_per_second)).map
            (fun x => x.tokens_per_second))) ∧
    ((LoadTest.calculate_statistics (l1 ++ m :: l2) tp).avg_ttft_ms =
        (LoadTest.calculate_statistics (l1 ++ l2) tp).avg_ttft_ms ∧
      (LoadTest.calculate_statistics (l1 ++ m :: l2) tp).p50_ttft_ms =
        (LoadTest.calculate_statistics (l1 ++ l2) tp).p50_ttft_ms ∧
      (LoadTest.calculate_statistics (l1 ++ m :: l2) tp).p95_ttft_ms =
        (LoadTest.calculate_statistics (l1 ++ l2) tp).p95_ttft_ms ∧
      (LoadTest.calculate_statistics (l1 ++ m :: l2) tp).p99_ttft_ms =
        (LoadTest.calculate_statistics (l1 ++ l2) tp).p99_ttft_ms) := by
  have char : ∀ xs : List LoadTest.RequestMetrics,
      (LoadTest.calculate_statistics xs tp).avg_latency_ms =
        LoadTest.meanOrZero ((xs.filter
          (fun x => 0 < x.e2e_latency_ms)).map
            (fun x => x.e2e_latency_ms)) ∧
      (LoadTest.calculate_statistics xs tp).p50_latency_ms =
        LoadTest.percentileOrZero ((xs.filter
          (fun x => 0 < x.e2e_latency_ms)).map
            (fun x => x.e2e_latency_ms)) 50 ∧
      (LoadTest.calculate_statistics xs tp).p95_latency_ms =
        LoadTest.percentileOrZero ((xs.filter
          (fun x => 0 < x.e2e_latency_ms)).map
            (fun x => x.e2e_latency_ms)) 95 ∧
      (LoadTest.calculate_statistics xs tp).p99_latency_ms =
        LoadTest.percentileOrZero ((xs.filter
          (fun x => 0 < x.e2e_latency_ms)).map
            (fun x => x.e2e_latency_ms)) 99 ∧
      (LoadTest.calculate_statistics xs tp).avg_ttft_ms =
        LoadTest.meanOrZero ((xs.filter (fun x => 0 < x.ttft_ms)).map
          (fun x => x.ttft_ms)) ∧
      (LoadTest.calculate_statistics xs tp).p50_ttft_ms =
        LoadTest.percentileOrZero ((xs.filter
          (fun x => 0 < x.ttft_ms)).map (fun x => x.ttft_ms)) 50 ∧
      (LoadTest.calculate_statistics xs tp).p95_ttft_ms =
        LoadTest.percentileOrZero ((xs.filter
          (fun x => 0 < x.ttft_ms)).map (fun x => x.ttft_ms)) 95 ∧
      (LoadTest.calculate_statistics xs tp).p99_ttft_ms =
        LoadTest.percentileOrZero ((xs.filter
          (fun x => 0 < x.ttft_ms)).map (fun x => x.ttft_ms)) 99 ∧
      (LoadTest.calculate_statistics xs tp).avg_tokens_per_second =
        LoadTest.meanOrZero ((xs.filter
          (fun x => 0 < x.tokens_per_second)).map
            (fun x => x.tokens_per_second)) := by
    intro xs
    by_cases hxs : xs = []
    · subst hxs
      simp [LoadTest.calculate_statistics, LoadTest.meanOrZero,
        LoadTest.percentileOrZero]
    · rw [LoadTest.calculate_statistics, if_neg hxs]
      exact ⟨rfl, rfl, rfl, rfl, rfl, rfl, rfl, rfl, rfl⟩
  have hfilter : (l1 ++ m :: l2).filter (fun x => 0 < x.ttft_ms) =
      (l1 ++ l2).filter (fun x => 0 < x.ttft_ms) := by
    simp only [List.filter_append, List.filter_cons]
    rw [if_neg (by simpa using hm)]
  refine ⟨char ms, ?_, ?_, ?_, ?_⟩
  · rw [(char (l1 ++ m :: l2)).2.2.2.2.1, (char (l1 ++ l2)).2.2.2.2.1,
      hfilter]
  · rw [(char (l1 ++ m :: l2)).2.2.2.2.2.1, (char (l1 ++ l2)).2.2.2.2.2.1,
      hfilter]
  · rw [(char (l1 ++ m :: l2)).2.2.2.2.2.2.1,
      (char (l1 ++ l2)).2.2.2.2.2.2.1, hfilter]
  · rw [(char (l1 ++ m :: l2)).2.2.2.2.2.2.2.1,
      (char (l1 ++ l2)).2.2.2.2.2.2.2.1, hfilter]

/-- Concrete run: inserting a request with `ttft_ms = 0` leaves the
average TTFT unchanged. -/
theorem calculate_statistics_filters_nonpositive_witness :
    (¬ (0 : ℚ) <
      ({ request_id := "z", start_time := 0, end_time := 1 } :
        LoadTest.RequestMetrics).ttft_ms) ∧
    (LoadTest.calculate_statistics
        ([{ request_id := "a", start_time := 0, end_time := 1,
            ttft_ms := 7 }] ++
          ({ request_id := "z", start_time := 0, end_time := 1 } :
            LoadTest.RequestMetrics) :: []) 3).avg_ttft_ms =
      (LoadTest.calculate_statistics
        ([{ request_id := "a", start_time := 0, end_time := 1,
            ttft_ms := 7 }] ++ []) 3).avg_ttft_ms := by
  have hm : ¬ (0 : ℚ) <
      ({ request_id := "z", start_time := 0, end_time := 1 } :
        LoadTest.RequestMetrics).ttft_ms := by norm_num
  exact ⟨hm, ((calculate_statistics_filters_nonpositive 3 []
    [{ request_id := "a", start_time := 0, end_time := 1, ttft_ms := 7 }]
    [] { request_id := "z", start_time := 0, end_time := 1 } hm).2).1⟩
